import Mathlib

/-!
Shallow embedding of the authentication and authorization core of the
aispeak-project REST API (TypeScript/Express), for checking its
natural-language specification.

Embedded modules:
  - src/utils/token.ts            (token service: sign/verify JWTs)
  - src/middleware/authMiddleware (authenticate, requireAdmin, requireOwnerOrAdmin)
  - src/controllers/authController (register, login, refreshToken, deleteUser, logout)
  - src/routes/authRoute.ts       (route wiring: authenticate applied before
                                   all protected routes, including /refresh-token)

Modelling conventions:
  - JWTs are modelled symbolically: a signed token is a structure carrying its
    payload, the secret it was signed with, and issued-at/expiry instants.
    Verification succeeds exactly when the presented secret equals the signing
    secret and the current time is before expiry (standard symbolic-crypto
    model of an unforgeable MAC/signature).
  - Attacker-controlled strings that are not well-formed signed tokens are the
    Segment.str constructor; verifying them always fails, as jwt.verify does
    on a non-JWT string.
  - JavaScript falsiness of strings (undefined or "") is modelled by
    Option String with envStr collapsing some "" to none.
  - bcrypt is an opaque injective hash: bcryptHash / bcryptCompare.
  - The Supabase users table is a List DBUser; .single() returning an error
    when no row matches is modelled by Option.
-/

/-- A JWT payload as signed by this codebase. jwt.sign signs whatever object
it is given; the call sites pass either the three identity fields, a bare id,
or an entire database row, so every field is optional. -/
structure Claims where
  id : Option String
  email : Option String
  is_admin : Option Bool
  password : Option String
  created_at : Option Nat
deriving DecidableEq, Repr

/-- A signed JWT, modelled symbolically: payload plus the signing secret and
the issued-at / expiry instants (seconds). -/
structure Token where
  claims : Claims
  secret : String
  iat : Nat
  exp : Nat
deriving DecidableEq, Repr

/-- A fragment of attacker-visible text: either an arbitrary string (never a
valid signed token) or a well-formed signed token. -/
inductive Segment where
  | str : String → Segment
  | tok : Token → Segment
deriving DecidableEq, Repr

/-- JSON values appearing in response bodies. Tokens appear opaquely (their
serialized JWT string), modelled by the jtok constructor. -/
inductive JVal where
  | str : String → JVal
  | jbool : Bool → JVal
  | num : Nat → JVal
  | jtok : Token → JVal
  | obj : List (String × JVal) → JVal

/-- The two signing secrets after configuration loading
(token.ts lines 7-8 / authController lines 9-14). -/
structure Secrets where
  jwtSecret : String
  refreshSecret : String
deriving DecidableEq, Repr

/-- JavaScript falsiness for an environment/string value: undefined (none)
and the empty string are falsy. -/
def envStr : Option String → Option String
  | none => none
  | some s => if s = "" then none else some s

/-- Secret loading at module initialization, from authController.ts lines 9-14:
`if (!JWT_SECRET) throw ...; const REFRESH_SECRET = process.env.REFRESH_SECRET || JWT_SECRET;
if (!REFRESH_SECRET) throw ...`. A thrown error aborts startup (Except.error). -/
def loadSecrets (jwtEnv refreshEnv : Option String) : Except String Secrets :=
  match envStr jwtEnv with
  | none => .error "JWT_SECRET is not defined in environment variables"
  | some jwt =>
    let refresh := (envStr refreshEnv).getD jwt
    if refresh = "" then .error "REFRESH_SECRET is not defined in environment variables"
    else .ok ⟨jwt, refresh⟩

/-- token.ts line 11: `jwt.sign(user, JWT_SECRET, { expiresIn: "15m" })`.
The whole object passed by the caller becomes the payload. -/
def generateAccessToken (user : Claims) (cfg : Secrets) (now : Nat) : Token :=
  ⟨user, cfg.jwtSecret, now, now + 15 * 60⟩

/-- token.ts line 14: `jwt.sign({ id: user.id }, REFRESH_SECRET, { expiresIn: "7d" })`.
Only the id field is signed. -/
def generateRefreshToken (id : Option String) (cfg : Secrets) (now : Nat) : Token :=
  ⟨⟨id, none, none, none, none⟩, cfg.refreshSecret, now, now + 7 * 24 * 60 * 60⟩

/-- Symbolic jwt.verify: succeeds iff the token was signed with the presented
secret and is not yet expired; returns the decoded payload. -/
def jwtVerify (t : Token) (secret : String) (now : Nat) : Option Claims :=
  if t.secret = secret ∧ now < t.exp then some t.claims else none

/-- jwt.verify applied to an arbitrary text segment: a string that is not a
well-formed signed token always fails verification. -/
def verifySegment (s : Segment) (secret : String) (now : Nat) : Option Claims :=
  match s with
  | .str _ => none
  | .tok t => jwtVerify t secret now

/-- token.ts line 17: `jwt.verify(token, REFRESH_SECRET)`. -/
def verifyRefreshToken (s : Segment) (cfg : Secrets) (now : Nat) : Option Claims :=
  verifySegment s cfg.refreshSecret now

/-- Access-token verification as performed by the authenticate middleware
(authMiddleware line 28): `jwt.verify(token, JWT_SECRET)`. -/
def verifyAccessToken (s : Segment) (cfg : Secrets) (now : Nat) : Option Claims :=
  verifySegment s cfg.jwtSecret now

/-- bcrypt.hash, modelled as an opaque injective one-way function. -/
def bcryptHash (password : String) : String :=
  String.append "$2b$10$" password

/-- bcrypt.compare: succeeds exactly on the password that produced the hash. -/
def bcryptCompare (password hash : String) : Bool :=
  bcryptHash password == hash

/-- A row of the Supabase users table. -/
structure DBUser where
  id : String
  email : String
  password : String
  is_admin : Bool
  created_at : Nat
deriving DecidableEq, Repr

/-- The full database row as a JWT payload: what generateAccessToken(data)
signs at register (authController line 50) and at refresh (line 192). -/
def DBUser.toClaims (u : DBUser) : Claims :=
  ⟨some u.id, some u.email, some u.is_admin, some u.password, some u.created_at⟩

/-- Exactly the three identity fields: what generateAccessToken receives at
login (authController line 100). -/
def identityClaims (u : DBUser) : Claims :=
  ⟨some u.id, some u.email, some u.is_admin, none, none⟩

/-- supabase.from("users").select().eq("email", e).single(): the first row
with that email, none when .single() errors (no row). -/
def findByEmail (db : List DBUser) (email : String) : Option DBUser :=
  db.find? (fun u => u.email == email)

/-- supabase .eq("id", v).single() where v may be undefined (JS): an undefined
filter value matches no row. -/
def findById (db : List DBUser) (id : Option String) : Option DBUser :=
  match id with
  | none => none
  | some i => db.find? (fun u => u.id == i)

/-- The request-body fields the auth controllers read. is_admin is kept as a
raw JSON value because register checks `typeof is_admin === "boolean"`. -/
structure ReqBody where
  email : Option String
  password : Option String
  is_admin : Option JVal

/-- An inbound HTTP request, restricted to what the embedded code reads:
the Authorization header (split on spaces, as authHeader.split(" ") — none
when the header is absent), the parsed cookies, and the bound path params. -/
structure Req where
  authorization : Option (List Segment)
  cookies : List (String × Segment)
  params : List (String × String)
  body : ReqBody

/-- Set-Cookie attributes used by cookie.serialize in this codebase. -/
structure CookieOpts where
  httpOnly : Bool
  secure : Bool
  sameSite : String
  maxAge : Option Nat
  expiresEpoch : Option Nat
  path : String
deriving DecidableEq, Repr

/-- A Set-Cookie header value; value none models the empty string written at
logout. -/
structure SetCookie where
  name : String
  value : Option Token
  opts : CookieOpts

/-- An HTTP response: status, JSON body, optional Set-Cookie header. -/
structure Response where
  status : Nat
  body : JVal
  setCookie : Option SetCookie

/-- Shorthand for the ubiquitous one-field error body. -/
def msgBody (s : String) : JVal :=
  .obj [("message", .str s)]

/-- Outcome of a middleware: either a terminal rejection response, or pass
control onward with the decoded user attached to the request. -/
inductive MWResult where
  | reject : Response → MWResult
  | proceed : Claims → MWResult

/-- JS falsiness of a text segment: only the empty string is falsy. -/
def jsFalsySeg : Segment → Bool
  | .str s => s == ""
  | .tok _ => false

/-- The token segment the authenticate middleware extracts:
`authHeader.split(" ")[1]`, with the subsequent `if (!token)` falsiness check
folded in (none when the header is absent, the index-1 segment is absent, or
it is the empty string). -/
def tokenSegment (req : Req) : Option Segment :=
  match req.authorization with
  | none => none
  | some segs =>
    match segs[1]? with
    | none => none
    | some seg => if jsFalsySeg seg then none else some seg

/-- authMiddleware lines 14-34: missing header or missing/empty token segment
rejects 401 Unauthorized; a present token that fails jwt.verify under
JWT_SECRET rejects 403 Invalid token; otherwise the decoded payload is
attached and control passes on. -/
def authenticate (req : Req) (cfg : Secrets) (now : Nat) : MWResult :=
  match req.authorization with
  | none => .reject ⟨401, msgBody "Unauthorized", none⟩
  | some segs =>
    match segs[1]? with
    | none => .reject ⟨401, msgBody "Unauthorized", none⟩
    | some seg =>
      if jsFalsySeg seg then .reject ⟨401, msgBody "Unauthorized", none⟩
      else
        match verifySegment seg cfg.jwtSecret now with
        | none => .reject ⟨403, msgBody "Invalid token", none⟩
        | some claims => .proceed claims

/-- authMiddleware lines 46-57: `if (!req.user?.is_admin)` reject 403, else
pass. The optional-chaining falsiness check treats an absent user, an absent
is_admin field, and false all alike. -/
def requireAdmin (user : Option Claims) : Option Response :=
  if (user.bind (fun u => u.is_admin)).getD false then none
  else some ⟨403, msgBody "Admin privileges required", none⟩

/-- authMiddleware lines 64-81: no authenticated user rejects 401; then
`authUser.id !== targetId && !authUser.is_admin` rejects 403; otherwise pass.
Option String equality models JS strict equality between possibly-undefined
strings. -/
def requireOwnerOrAdmin (paramName : String) (req : Req) (user : Option Claims) :
    Option Response :=
  match user with
  | none => some ⟨401, msgBody "Unauthorized", none⟩
  | some u =>
    if u.id ≠ req.params.lookup paramName ∧ u.is_admin.getD false = false then
      some ⟨403, msgBody "Access denied", none⟩
    else none

/-- Route chaining for protected routes (authRoute line 13,
`router.use(authenticate)`): the handler runs only if authenticate proceeds,
and then sees the attached user. -/
def runProtected (req : Req) (cfg : Secrets) (now : Nat)
    (handler : Req → Option Claims → Response) : Response :=
  match authenticate req cfg now with
  | .reject r => r
  | .proceed u => handler req (some u)

/-- The refresh-token Set-Cookie written by register and login
(authController lines 53-62 / 103-112): httpOnly, secure in production,
SameSite=Strict, maxAge 7 days, path /. -/
def refreshCookie (t : Token) (isProd : Bool) : SetCookie :=
  ⟨"refreshToken", some t, ⟨true, isProd, "strict", some (7 * 24 * 60 * 60), none, "/"⟩⟩

/-- register coerces the client-supplied is_admin:
`typeof is_admin === "boolean" ? is_admin : false` (authController line 40). -/
def coerceIsAdmin : Option JVal → Bool
  | some (.jbool b) => b
  | _ => false

/-- authController lines 22-71 (register): 400 when email or password is
missing/empty; 409 when a user with that email exists; otherwise hash the
password, insert the row (the database assigns freshId and the timestamp),
sign the WHOLE inserted row as the access token, sign a refresh token for the
new id, set the refresh cookie, and return 201 with the access token.
Returns the response together with the updated users table. -/
def register (body : ReqBody) (db : List DBUser) (cfg : Secrets) (isProd : Bool)
    (freshId : String) (now : Nat) : Response × List DBUser :=
  match envStr body.email, envStr body.password with
  | some email, some password =>
    match findByEmail db email with
    | some _ => (⟨409, msgBody "User already exists", none⟩, db)
    | none =>
      let hashed := bcryptHash password
      let data : DBUser := ⟨freshId, email, hashed, coerceIsAdmin body.is_admin, now⟩
      let db' := db ++ [data]
      let accessToken := generateAccessToken data.toClaims cfg now
      let refreshTok := generateRefreshToken (some data.id) cfg now
      (⟨201, .obj [("message", .str "User created successfully"),
                   ("accessToken", .jtok accessToken)],
        some (refreshCookie refreshTok isProd)⟩, db')
  | _, _ => (⟨400, msgBody "Email and password are required", none⟩, db)

/-- authController lines 79-122 (login): 400 when email or password is
missing/empty; a single uniform 401 body both when the email is unknown and
when the password does not match; on success, sign exactly
{ id, email, is_admin } as the access token, set the refresh cookie, 200. -/
def login (body : ReqBody) (db : List DBUser) (cfg : Secrets) (isProd : Bool)
    (now : Nat) : Response :=
  match envStr body.email, envStr body.password with
  | some email, some password =>
    match findByEmail db email with
    | none => ⟨401, msgBody "Invalid email or password", none⟩
    | some user =>
      if bcryptCompare password user.password then
        let accessToken := generateAccessToken (identityClaims user) cfg now
        let refreshTok := generateRefreshToken (some user.id) cfg now
        ⟨200, .obj [("message", .str "Login successful"),
                    ("accessToken", .jtok accessToken),
                    ("user", .obj [("id", .str user.id), ("email", .str user.email),
                                   ("is_admin", .jbool user.is_admin)])],
         some (refreshCookie refreshTok isProd)⟩
      else ⟨401, msgBody "Invalid email or password", none⟩
  | _, _ => ⟨400, msgBody "Email and password are required", none⟩

/-- authController lines 170-197 (refreshToken handler): read the
refreshToken cookie (401 when absent/empty); verify it under REFRESH_SECRET
(a thrown verification error is caught as 403); re-look-up the user by the
decoded id (401 when not found); sign the WHOLE fetched row as a fresh access
token and return it with 200, with no new Set-Cookie. -/
def refreshTokenHandler (req : Req) (db : List DBUser) (cfg : Secrets) (now : Nat) :
    Response :=
  match req.cookies.lookup "refreshToken" with
  | none => ⟨401, msgBody "No refresh token provided", none⟩
  | some seg =>
    if jsFalsySeg seg then ⟨401, msgBody "No refresh token provided", none⟩
    else
      match verifyRefreshToken seg cfg now with
      | none => ⟨403, .obj [("message", .str "Invalid refresh token"),
                            ("error", .str "jwt verification failed")], none⟩
      | some payload =>
        match findById db payload.id with
        | none => ⟨401, msgBody "Invalid refresh token", none⟩
        | some user =>
          ⟨200, .obj [("accessToken", .jtok (generateAccessToken user.toClaims cfg now))],
           none⟩

/-- authController line 131: the id the deleteUser handler filters the delete
by is `req.params.id`. -/
def deleteUserFilterId (req : Req) : Option String :=
  req.params.lookup "id"

/-- authController lines 129-144 (deleteUser): delete the row whose id equals
req.params.id; .single() errors (500) when no row matched, otherwise 200 with
the deleted row. Returns the response with the updated users table. -/
def deleteUser (req : Req) (db : List DBUser) : Response × List DBUser :=
  match findById db (deleteUserFilterId req) with
  | none => (⟨500, .obj [("message", .str "Error deleting user"),
                         ("error", .str "no rows returned")], none⟩, db)
  | some u =>
    (⟨200, .obj [("message", .str "User deleted successfully")], none⟩,
     db.filter (fun x => x.id ≠ u.id))

/-- authRoute line 17: `router.delete(/user/:userId, requireAdmin, deleteUser)`.
The route pattern binds the path parameter named userId (and only it) to the
URL segment. -/
def deleteUserRouteParams (urlId : String) : List (String × String) :=
  [("userId", urlId)]

/-- A request field-lookup into a JSON object body, used to extract the
accessToken a handler returned. -/
def lookupTok : List (String × JVal) → Option Token
  | [] => none
  | (k, v) :: rest => if k = "accessToken" then
      match v with
      | .jtok t => some t
      | _ => none
    else lookupTok rest

/-- The access token carried in a response body, if any. -/
def Response.accessToken (r : Response) : Option Token :=
  match r.body with
  | .obj kvs => lookupTok kvs
  | _ => none

/-- The GET /auth/refresh-token route as wired in authRoute lines 13-15: the
authenticate middleware (router.use) runs before the refreshToken handler. -/
def refreshRoute (req : Req) (db : List DBUser) (cfg : Secrets) (now : Nat) :
    Response :=
  runProtected req cfg now (fun r _ => refreshTokenHandler r db cfg now)

/-! ## Helper lemmas -/

/-- A truthy environment string is nonempty. -/
theorem envStr_eq_some {o : Option String} {s : String} (h : envStr o = some s) :
    s ≠ "" ∧ o = some s := by
  cases o with
  | none => simp [envStr] at h
  | some t =>
    simp only [envStr] at h
    split at h
    · exact absurd h (by simp)
    · rename_i ht
      cases h
      exact ⟨ht, rfl⟩

/-- Evaluating envStr on a nonempty string. -/
theorem envStr_of_ne {s : String} (h : s ≠ "") : envStr (some s) = some s := by
  simp [envStr, h]

/-! ## Claim theorems -/

/-- C8: for every valid identity (id, email, is_admin), verifying the access
token issued for that identity before its expiry instant, under the same
access secret, succeeds and returns claims with the same id, email and
is_admin. -/
theorem verifyAccessToken_of_generateAccessToken
    (id email : String) (adm : Bool) (cfg : Secrets) (now now' : Nat)
    (h : now' < now + 15 * 60) :
    verifyAccessToken
        (.tok (generateAccessToken ⟨some id, some email, some adm, none, none⟩ cfg now))
        cfg now' =
      some ⟨some id, some email, some adm, none, none⟩ := by
  simp [verifyAccessToken, verifySegment, generateAccessToken, jwtVerify, h]

/-- Witness for C8 at a concrete identity, secret pair and time. -/
theorem verifyAccessToken_of_generateAccessToken_witness :
    verifyAccessToken
        (.tok (generateAccessToken ⟨some "u1", some "a@x.com", some false, none, none⟩
          ⟨"s", "r"⟩ 0))
        ⟨"s", "r"⟩ 100 =
      some ⟨some "u1", some "a@x.com", some false, none, none⟩ :=
  verifyAccessToken_of_generateAccessToken "u1" "a@x.com" false ⟨"s", "r"⟩ 0 100
    (by decide)


/-- Characterization of the authenticate middleware through the extracted
token segment: the three outcomes of authMiddleware lines 14-34. -/
theorem authenticate_eq (req : Req) (cfg : Secrets) (now : Nat) :
    authenticate req cfg now =
      match tokenSegment req with
      | none => .reject ⟨401, msgBody "Unauthorized", none⟩
      | some seg =>
        match verifySegment seg cfg.jwtSecret now with
        | none => .reject ⟨403, msgBody "Invalid token", none⟩
        | some c => .proceed c := by
  unfold authenticate tokenSegment
  cases req.authorization with
  | none => rfl
  | some segs =>
    cases hG : segs[1]? with
    | none => simp [hG]
    | some seg =>
      by_cases hf : jsFalsySeg seg = true
      · simp [hG, hf]
      · simp [hG, hf]

/-- C5: the Authentication Gate. When the Authorization header is missing or
carries no (nonempty) token segment at index 1, authenticate rejects with 401
Unauthorized and no downstream handler is ever reached; when a token segment
is present but fails access-token verification, it rejects with 403 Invalid
token (again reaching no handler); when verification succeeds, the decoded
claims are attached and the downstream handler runs with them. -/
theorem authenticate_gate_spec (req : Req) (cfg : Secrets) (now : Nat) :
    (tokenSegment req = none →
      authenticate req cfg now = .reject ⟨401, msgBody "Unauthorized", none⟩ ∧
      ∀ h : Req → Option Claims → Response,
        runProtected req cfg now h = ⟨401, msgBody "Unauthorized", none⟩) ∧
    (∀ seg, tokenSegment req = some seg → verifyAccessToken seg cfg now = none →
      authenticate req cfg now = .reject ⟨403, msgBody "Invalid token", none⟩ ∧
      ∀ h : Req → Option Claims → Response,
        runProtected req cfg now h = ⟨403, msgBody "Invalid token", none⟩) ∧
    (∀ seg c, tokenSegment req = some seg → verifyAccessToken seg cfg now = some c →
      authenticate req cfg now = .proceed c ∧
      ∀ h : Req → Option Claims → Response,
        runProtected req cfg now h = h req (some c)) := by
  refine ⟨?_, ?_, ?_⟩
  · intro hseg
    have hEq := authenticate_eq req cfg now
    simp only [hseg] at hEq
    exact ⟨hEq, fun h => by unfold runProtected; rw [hEq]⟩
  · intro seg hseg hver
    have hEq := authenticate_eq req cfg now
    unfold verifyAccessToken at hver
    simp only [hseg, hver] at hEq
    exact ⟨hEq, fun h => by unfold runProtected; rw [hEq]⟩
  · intro seg c hseg hver
    have hEq := authenticate_eq req cfg now
    unfold verifyAccessToken at hver
    simp only [hseg, hver] at hEq
    exact ⟨hEq, fun h => by unfold runProtected; rw [hEq]⟩

/-- Witness for C5: a request with no Authorization header is rejected 401. -/
theorem authenticate_gate_spec_witness :
    authenticate ⟨none, [], [], ⟨none, none, none⟩⟩ ⟨"s", "s"⟩ 0 =
      .reject ⟨401, msgBody "Unauthorized", none⟩ :=
  ((authenticate_gate_spec ⟨none, [], [], ⟨none, none, none⟩⟩ ⟨"s", "s"⟩ 0).1 rfl).1

/-- C6: requireOwnerOrAdmin(paramName) with an authenticated identity passes
(calls next, i.e. returns none) iff the id of the identity equals the value
of the bound path parameter or the is_admin flag of the identity is true; it rejects 403
Access denied otherwise, and rejects 401 Unauthorized when no authenticated
identity is attached. -/
theorem requireOwnerOrAdmin_spec (p : String) (req : Req) (i e : String)
    (adm : Bool) (pw : Option String) (ca : Option Nat) :
    (requireOwnerOrAdmin p req (some ⟨some i, some e, some adm, pw, ca⟩) = none ↔
      (req.params.lookup p = some i ∨ adm = true)) ∧
    (¬(req.params.lookup p = some i ∨ adm = true) →
      requireOwnerOrAdmin p req (some ⟨some i, some e, some adm, pw, ca⟩) =
        some ⟨403, msgBody "Access denied", none⟩) ∧
    requireOwnerOrAdmin p req none = some ⟨401, msgBody "Unauthorized", none⟩ := by
  simp only [requireOwnerOrAdmin]
  refine ⟨?_, ?_, by trivial⟩
  · rcases eq_or_ne (req.params.lookup p) (some i) with hL | hL
    · simp [hL]
    · cases adm with
      | false => simp [hL, Ne.symm hL]
      | true => simp [hL]
  · intro hno
    push_neg at hno
    have hadm : adm = false := by
      cases adm with
      | false => rfl
      | true => exact absurd rfl hno.2
    simp [hadm, Ne.symm hno.1]

/-- Witness for C6: a non-admin identity whose id differs from the bound
userId path parameter is rejected with 403. -/
theorem requireOwnerOrAdmin_spec_witness :
    requireOwnerOrAdmin "userId"
        ⟨none, [], [("userId", "u2")], ⟨none, none, none⟩⟩
        (some ⟨some "u1", some "a@x.com", some false, none, none⟩) =
      some ⟨403, msgBody "Access denied", none⟩ :=
  (requireOwnerOrAdmin_spec "userId"
      ⟨none, [], [("userId", "u2")], ⟨none, none, none⟩⟩
      "u1" "a@x.com" false none none).2.1 (by decide)

/-- C4: the login responses for a wrong password on an existing account and
for a non-existent email are indistinguishable: both are status 401 with the
identical generic body, so neither status nor body reveals whether the email
exists. -/
theorem login_uniform_unauthorized (db : List DBUser) (e1 p1 e2 p2 : String)
    (cfg : Secrets) (isProd : Bool) (now : Nat) (u : DBUser)
    (he1 : e1 ≠ "") (hp1 : p1 ≠ "")
    (hu : findByEmail db e1 = some u)
    (hpw : bcryptCompare p1 u.password = false)
    (he2 : e2 ≠ "") (hp2 : p2 ≠ "")
    (hmiss : findByEmail db e2 = none) :
    login ⟨some e1, some p1, none⟩ db cfg isProd now =
      ⟨401, msgBody "Invalid email or password", none⟩ ∧
    login ⟨some e2, some p2, none⟩ db cfg isProd now =
      ⟨401, msgBody "Invalid email or password", none⟩ := by
  constructor
  · unfold login
    simp only [envStr_of_ne he1, envStr_of_ne hp1, hu, hpw]
    simp
  · unfold login
    simp only [envStr_of_ne he2, envStr_of_ne hp2, hmiss]

/-- Witness for C4 on a one-user table: wrong password for the stored email
and a login for an absent email produce the same 401 response. -/
theorem login_uniform_unauthorized_witness :
    login ⟨some "a@x.com", some "wrong", none⟩
        [⟨"u1", "a@x.com", bcryptHash "right", false, 0⟩] ⟨"s", "s"⟩ false 5 =
      ⟨401, msgBody "Invalid email or password", none⟩ ∧
    login ⟨some "b@x.com", some "pw", none⟩
        [⟨"u1", "a@x.com", bcryptHash "right", false, 0⟩] ⟨"s", "s"⟩ false 5 =
      ⟨401, msgBody "Invalid email or password", none⟩ :=
  login_uniform_unauthorized
    [⟨"u1", "a@x.com", bcryptHash "right", false, 0⟩]
    "a@x.com" "wrong" "b@x.com" "pw" ⟨"s", "s"⟩ false 5
    ⟨"u1", "a@x.com", bcryptHash "right", false, 0⟩
    (by decide) (by decide) (by decide) (by decide) (by decide) (by decide) (by decide)

/-- C9: register takes is_admin straight from the body sent by the
unauthenticated client: when the body carries is_admin = true (a JSON boolean) with a fresh
email and password, the persisted row has is_admin = true, the response is
201, and the issued access token asserts is_admin = true. Any non-boolean or
absent is_admin defaults to false. -/
theorem register_trusts_client_is_admin (db : List DBUser) (e p : String)
    (cfg : Secrets) (isProd : Bool) (fid : String) (now : Nat)
    (he : e ≠ "") (hp : p ≠ "") (hfresh : findByEmail db e = none) :
    (register ⟨some e, some p, some (.jbool true)⟩ db cfg isProd fid now).2 =
      db ++ [⟨fid, e, bcryptHash p, true, now⟩] ∧
    (register ⟨some e, some p, some (.jbool true)⟩ db cfg isProd fid now).1.status = 201 ∧
    ((register ⟨some e, some p, some (.jbool true)⟩ db cfg isProd fid now).1.accessToken).map
        (fun t => t.claims.is_admin) = some (some true) ∧
    coerceIsAdmin none = false := by
  unfold register
  simp only [envStr_of_ne he, envStr_of_ne hp, hfresh]
  refine ⟨by trivial, by trivial, ?_, by trivial⟩
  simp [Response.accessToken, lookupTok, coerceIsAdmin, generateAccessToken,
    DBUser.toClaims]

/-- Witness for C9: registering on an empty table with is_admin true in the
body persists an admin row and mints an admin-asserting token. -/
theorem register_trusts_client_is_admin_witness :
    (register ⟨some "a@x.com", some "p", some (.jbool true)⟩ [] ⟨"s", "s"⟩ false "u1" 0).2 =
      [⟨"u1", "a@x.com", bcryptHash "p", true, 0⟩] ∧
    (register ⟨some "a@x.com", some "p", some (.jbool true)⟩ [] ⟨"s", "s"⟩ false "u1" 0).1.status = 201 ∧
    ((register ⟨some "a@x.com", some "p", some (.jbool true)⟩ [] ⟨"s", "s"⟩ false "u1" 0).1.accessToken).map
        (fun t => t.claims.is_admin) = some (some true) ∧
    coerceIsAdmin none = false := by
  have h := register_trusts_client_is_admin [] "a@x.com" "p" ⟨"s", "s"⟩ false "u1" 0
    (by decide) (by decide) (by decide)
  simpa using h

/-- C10: the DELETE /auth/user/:userId route binds only the path parameter
named userId, while the deleteUser handler filters the delete by
req.params.id; so for every URL the filter id is undefined (none), the delete
matches no row, the table is unchanged, and the handler reports a 500 error —
the user named in the URL is never the one targeted. -/
theorem deleteUser_reads_unbound_param (urlId : String) (db : List DBUser)
    (auth : Option (List Segment)) (cookies : List (String × Segment))
    (body : ReqBody) :
    deleteUserFilterId ⟨auth, cookies, deleteUserRouteParams urlId, body⟩ = none ∧
    deleteUser ⟨auth, cookies, deleteUserRouteParams urlId, body⟩ db =
      (⟨500, .obj [("message", .str "Error deleting user"),
                   ("error", .str "no rows returned")], none⟩, db) := by
  have hfi : deleteUserFilterId ⟨auth, cookies, deleteUserRouteParams urlId, body⟩ = none := by
    simp [deleteUserFilterId, deleteUserRouteParams, List.lookup]
  refine ⟨hfi, ?_⟩
  unfold deleteUser
  rw [hfi]
  rfl

/-- C7 counterexample: with the access secret configured and the refresh
secret absent, startup does NOT abort — loading succeeds with the refresh
secret falling back to the access secret, contradicting "if either signing
secret is absent, startup aborts". -/
theorem loadSecrets_missing_refresh_no_abort :
    loadSecrets (some "access-secret") none = .ok ⟨"access-secret", "access-secret"⟩ := by
  rfl

/-- C7 amended: startup aborts exactly when the access secret is absent
(undefined or empty); an absent refresh secret is not fatal, it falls back to
the access secret. -/
theorem loadSecrets_access_required_refresh_falls_back
    (jwtEnv refreshEnv : Option String) :
    (envStr jwtEnv = none →
      loadSecrets jwtEnv refreshEnv =
        .error "JWT_SECRET is not defined in environment variables") ∧
    (∀ j, envStr jwtEnv = some j →
      loadSecrets jwtEnv refreshEnv = .ok ⟨j, (envStr refreshEnv).getD j⟩) := by
  constructor
  · intro h
    unfold loadSecrets
    rw [h]
  · intro j hj
    unfold loadSecrets
    rw [hj]
    have hjne : j ≠ "" := (envStr_eq_some hj).1
    have hne : (envStr refreshEnv).getD j ≠ "" := by
      cases hr : envStr refreshEnv with
      | none => simpa using hjne
      | some r => simpa using (envStr_eq_some hr).1
    simp [hne]

/-- Witness for the amended C7: both secrets present loads both verbatim. -/
theorem loadSecrets_access_required_refresh_falls_back_witness :
    loadSecrets (some "s") (some "r") = .ok ⟨"s", "r"⟩ := by
  have h := (loadSecrets_access_required_refresh_falls_back (some "s") (some "r")).2
    "s" (by rfl)
  simpa [envStr] using h

/-- C1 counterexample: the access token issued by register on a concrete
fresh registration carries the bcrypt password hash in its signed payload —
the token does not embed only the three identity fields. -/
theorem register_access_token_not_minimal :
    ((register ⟨some "a@x.com", some "p", none⟩ [] ⟨"s", "s"⟩ false "u1" 0).1.accessToken).map
        (fun t => t.claims.password) = some (some (bcryptHash "p")) := by
  rfl

/-- C1 amended: every issued access token expires 15 minutes after issuance,
but only login signs exactly the three identity fields; register and refresh
sign the entire stored user row, password hash and created_at included. -/
theorem accessToken_claims_by_flow :
    (∀ (db : List DBUser) (e p : String) (u : DBUser) (cfg : Secrets)
        (isProd : Bool) (now : Nat),
      e ≠ "" → p ≠ "" → findByEmail db e = some u →
      bcryptCompare p u.password = true →
      (login ⟨some e, some p, none⟩ db cfg isProd now).accessToken =
        some ⟨identityClaims u, cfg.jwtSecret, now, now + 15 * 60⟩) ∧
    (∀ (db : List DBUser) (e p : String) (ia : Option JVal) (cfg : Secrets)
        (isProd : Bool) (fid : String) (now : Nat),
      e ≠ "" → p ≠ "" → findByEmail db e = none →
      ((register ⟨some e, some p, ia⟩ db cfg isProd fid now).1).accessToken =
        some ⟨DBUser.toClaims ⟨fid, e, bcryptHash p, coerceIsAdmin ia, now⟩,
              cfg.jwtSecret, now, now + 15 * 60⟩) ∧
    (∀ (req : Req) (db : List DBUser) (cfg : Secrets) (now : Nat)
        (seg : Segment) (c : Claims) (u : DBUser),
      req.cookies.lookup "refreshToken" = some seg → jsFalsySeg seg = false →
      verifyRefreshToken seg cfg now = some c → findById db c.id = some u →
      (refreshTokenHandler req db cfg now).accessToken =
        some ⟨DBUser.toClaims u, cfg.jwtSecret, now, now + 15 * 60⟩) := by
  refine ⟨?_, ?_, ?_⟩
  · intro db e p u cfg isProd now he hp hu hpw
    unfold login
    simp only [envStr_of_ne he, envStr_of_ne hp, hu, hpw]
    simp [Response.accessToken, lookupTok, generateAccessToken]
  · intro db e p ia cfg isProd fid now he hp hfresh
    unfold register
    simp only [envStr_of_ne he, envStr_of_ne hp, hfresh]
    simp [Response.accessToken, lookupTok, generateAccessToken]
  · intro req db cfg now seg c u hcook hfalsy hver hfind
    unfold refreshTokenHandler
    simp only [hcook, hfalsy, hver, hfind]
    simp [Response.accessToken, lookupTok, generateAccessToken]

/-- Witness for the amended C1: a concrete fresh registration issues the
full-row token with a 15-minute expiry. -/
theorem accessToken_claims_by_flow_witness :
    ((register ⟨some "a@x.com", some "p", none⟩ [] ⟨"s", "s"⟩ false "u1" 0).1).accessToken =
      some ⟨DBUser.toClaims ⟨"u1", "a@x.com", bcryptHash "p", coerceIsAdmin none, 0⟩,
            "s", 0, 0 + 15 * 60⟩ :=
  accessToken_claims_by_flow.2.1 [] "a@x.com" "p" none ⟨"s", "s"⟩ false "u1" 0
    (by decide) (by decide) (by decide)

/-- C2 counterexample: in the documented fallback mode (no refresh secret
configured, so the refresh secret reuses the access secret), a refresh token
presented as a bearer access token VERIFIES and the request proceeds with the
bare-id payload attached — it is not rejected with 403. -/
theorem refresh_token_as_bearer_not_rejected_in_fallback :
    loadSecrets (some "s") none = .ok ⟨"s", "s"⟩ ∧
    authenticate
        ⟨some [.str "Bearer", .tok (generateRefreshToken (some "u1") ⟨"s", "s"⟩ 0)],
         [], [], ⟨none, none, none⟩⟩ ⟨"s", "s"⟩ 60 =
      .proceed ⟨some "u1", none, none, none, none⟩ ∧
    authenticate
        ⟨some [.str "Bearer", .tok (generateRefreshToken (some "u1") ⟨"s", "s"⟩ 0)],
         [], [], ⟨none, none, none⟩⟩ ⟨"s", "s"⟩ 60 ≠
      .reject ⟨403, msgBody "Invalid token", none⟩ := by
  refine ⟨by rfl, by rfl, fun h => ?_⟩
  rw [show authenticate
        ⟨some [.str "Bearer", .tok (generateRefreshToken (some "u1") ⟨"s", "s"⟩ 0)],
         [], [], ⟨none, none, none⟩⟩ ⟨"s", "s"⟩ 60 =
      .proceed ⟨some "u1", none, none, none, none⟩ from rfl] at h
  exact MWResult.noConfusion h

/-- C2 amended: provided the refresh secret is configured distinct from the
access secret, a refresh token presented as Authorization Bearer on a
protected route fails access-token verification and the request is rejected
with 403, reaching no handler; with no refresh secret configured the access
secret is reused and the rejection does not occur. -/
theorem refresh_token_as_bearer_rejected_when_secrets_distinct
    (id : String) (cfg : Secrets) (now now' : Nat)
    (cookies : List (String × Segment)) (params : List (String × String))
    (body : ReqBody) (hsec : cfg.refreshSecret ≠ cfg.jwtSecret) :
    authenticate
        ⟨some [.str "Bearer", .tok (generateRefreshToken (some id) cfg now)],
         cookies, params, body⟩ cfg now' =
      .reject ⟨403, msgBody "Invalid token", none⟩ ∧
    ∀ h : Req → Option Claims → Response,
      runProtected
        ⟨some [.str "Bearer", .tok (generateRefreshToken (some id) cfg now)],
         cookies, params, body⟩ cfg now' h =
      ⟨403, msgBody "Invalid token", none⟩ := by
  have hver : verifySegment (.tok (generateRefreshToken (some id) cfg now))
      cfg.jwtSecret now' = none := by
    simp [verifySegment, jwtVerify, generateRefreshToken, hsec]
  constructor
  · simp [authenticate, jsFalsySeg, hver]
  · intro h
    simp [runProtected, authenticate, jsFalsySeg, hver]

/-- Witness for the amended C2 with concrete distinct secrets. -/
theorem refresh_token_as_bearer_rejected_when_secrets_distinct_witness :
    authenticate
        ⟨some [.str "Bearer", .tok (generateRefreshToken (some "u1") ⟨"a", "r"⟩ 0)],
         [], [], ⟨none, none, none⟩⟩ ⟨"a", "r"⟩ 30 =
      .reject ⟨403, msgBody "Invalid token", none⟩ :=
  (refresh_token_as_bearer_rejected_when_secrets_distinct "u1" ⟨"a", "r"⟩ 0 30
    [] [] ⟨none, none, none⟩ (by decide)).1

/-- C3: the GET /auth/refresh-token route as wired runs the authenticate
middleware first, so the claimed cookie-only refresh request (valid,
unexpired refresh cookie for a stored user, no Authorization header) is
rejected 401 and never reaches the refresh handler — even though the handler
by itself, as its own doc comment describes, would answer 200 with a fresh
access token (re-looked-up by id) and set no new refresh cookie. -/
theorem refresh_route_rejects_cookie_only_request :
    refreshRoute
        ⟨none, [("refreshToken", .tok (generateRefreshToken (some "u1") ⟨"as", "rs"⟩ 0))],
         [], ⟨none, none, none⟩⟩
        [⟨"u1", "a@x.com", bcryptHash "p", false, 0⟩] ⟨"as", "rs"⟩ 600 =
      ⟨401, msgBody "Unauthorized", none⟩ ∧
    refreshTokenHandler
        ⟨none, [("refreshToken", .tok (generateRefreshToken (some "u1") ⟨"as", "rs"⟩ 0))],
         [], ⟨none, none, none⟩⟩
        [⟨"u1", "a@x.com", bcryptHash "p", false, 0⟩] ⟨"as", "rs"⟩ 600 =
      ⟨200, .obj [("accessToken",
          .jtok (generateAccessToken
            (DBUser.toClaims ⟨"u1", "a@x.com", bcryptHash "p", false, 0⟩)
            ⟨"as", "rs"⟩ 600))], none⟩ :=
  ⟨rfl, rfl⟩
